import Mathlib

/-!
Verification of the introspection-to-SDL renderer of this repository.

The renderer is the JavaScript program around `generateSchemaFromIntrospection`:
it consumes a parsed GraphQL introspection payload (a JSON-like dynamic value)
and produces an SDL-like text document.  The embedding below models JavaScript
values with the `Json` type (with an explicit `undefined` constructor for
JavaScript's `undefined`), property access that throws a TypeError on
`null`/`undefined` receivers via `Except Unit`, JavaScript truthiness, and the
string coercions used by template literals.  Each definition mirrors one
function or expression of the source file.
-/

namespace GqlPoc

/-- A JavaScript value as it can occur in the renderer's input: JSON values
plus `undefined` (which arises from accessing an absent property). -/
inductive Json where
  | undefined : Json
  | null : Json
  | bool : Bool → Json
  | num : Int → Json
  | str : String → Json
  | arr : List Json → Json
  | obj : List (String × Json) → Json
deriving Repr

/-- First-match lookup of a key in an object's field list (JavaScript property
lookup on a plain object). -/
def lookupField : List (String × Json) → String → Option Json
  | [], _ => none
  | (key, val) :: tl, k => if key == k then some val else lookupField tl k

/-- JavaScript truthiness: `undefined`, `null`, `false`, `0` and `""` are
falsy; every other value (including empty arrays and objects) is truthy. -/
def truthy : Json → Bool
  | .undefined => false
  | .null => false
  | .bool b => b
  | .num n => !(n == 0)
  | .str s => !(s == "")
  | .arr _ => true
  | .obj _ => true

/-- Whether a value is an array (`Array.isArray`). -/
def Json.isArr : Json → Bool
  | .arr _ => true
  | _ => false

/-- Strict equality of a value against a string literal (`x === "s"`). -/
def isStrEq : Json → String → Bool
  | .str s, t => s == t
  | _, _ => false

/-- Total property access: returns `undefined` for absent keys and for
non-object receivers.  Only used where the receiver is known not to be
`null`/`undefined`. -/
def getFD : Json → String → Json
  | .obj fs, k => (lookupField fs k).getD .undefined
  | _, _ => .undefined

/-- Property access with JavaScript semantics: accessing a property of
`null` or `undefined` throws a TypeError (modelled as `Except.error ()`);
on any other receiver it yields the property value or `undefined`. -/
def getF : Json → String → Except Unit Json
  | .null, _ => .error ()
  | .undefined, _ => .error ()
  | t, k => .ok (getFD t k)

mutual
/-- JavaScript string coercion as used by template literals (`String(x)`). -/
def jsToString : Json → String
  | .undefined => "undefined"
  | .null => "null"
  | .bool true => "true"
  | .bool false => "false"
  | .num n => toString n
  | .str s => s
  | .arr xs => String.intercalate "," (jsToStringList xs)
  | .obj _ => "[object Object]"
/-- Element coercion inside `Array.prototype.toString`: `null` and
`undefined` elements become the empty string. -/
def jsToStringList : List Json → List String
  | [] => []
  | .null :: tl => "" :: jsToStringList tl
  | .undefined :: tl => "" :: jsToStringList tl
  | j :: tl => jsToString j :: jsToStringList tl
end

theorem lookupField_sizeOf (fs : List (String × Json)) (k : String) (v : Json)
    (h : lookupField fs k = some v) : sizeOf v < sizeOf (Json.obj fs) := by
  induction fs with
  | nil => simp [lookupField] at h
  | cons p tl ih =>
    obtain ⟨key, val⟩ := p
    rw [lookupField] at h
    split at h
    · cases h; simp; omega
    · have := ih h
      simp at this ⊢
      omega

/-- The source's recursive type-name unwrapper:

```js
function getTypeString(type) {
  if (type.kind === 'NON_NULL') {
    return getTypeString(type.ofType) + '!';
  } else if (type.kind === 'LIST') {
    return '[' + getTypeString(type.ofType) + ']';
  } else {
    return type.name;
  }
}
```

Property access on a `null`/`undefined` node throws (`Except.error ()`);
an absent `ofType` key makes the recursive call receive `undefined`, which
then throws on its own `.kind` access, so it is inlined as an error. -/
def getTypeString : Json → Except Unit Json
  | .null => .error ()
  | .undefined => .error ()
  | .obj fs =>
      if isStrEq ((lookupField fs "kind").getD .undefined) "NON_NULL" then
        match h : lookupField fs "ofType" with
        | some v => Except.map (fun s => Json.str (jsToString s ++ "!")) (getTypeString v)
        | none => .error ()
      else if isStrEq ((lookupField fs "kind").getD .undefined) "LIST" then
        match h : lookupField fs "ofType" with
        | some v => Except.map (fun s => Json.str ("[" ++ jsToString s ++ "]")) (getTypeString v)
        | none => .error ()
      else .ok ((lookupField fs "name").getD .undefined)
  | .bool _ => .ok .undefined
  | .num _ => .ok .undefined
  | .str _ => .ok .undefined
  | .arr _ => .ok .undefined
termination_by t => sizeOf t
decreasing_by
  all_goals exact lookupField_sizeOf _ _ _ h

/-- String prefix test by character list, semantically `String.startsWith`
(spelled out structurally so that concrete instances compute). -/
def strStartsWith (s p : String) : Bool := p.toList.isPrefixOf s.toList

/-- The `.startsWith` method call: defined on strings, a TypeError on any
other receiver (the renderer only calls it on truthy `name` values). -/
def jsStartsWith : Json → String → Except Unit Bool
  | .str s, p => .ok (strStartsWith s p)
  | _, _ => .error ()

/-- The filter callback of the renderer:

```js
type => type.name && !type.name.startsWith('__') &&
  (type.kind === 'OBJECT' || type.kind === 'INPUT_OBJECT' || type.kind === 'ENUM')
```

returned to `Array.prototype.filter`, which uses the result's truthiness. -/
def filterPredicate (t : Json) : Except Unit Bool :=
  match getF t "name" with
  | .error e => .error e
  | .ok name =>
    if truthy name = false then .ok false
    else
      match jsStartsWith name "__" with
      | .error e => .error e
      | .ok sw =>
        if sw then .ok false
        else
          match getF t "kind" with
          | .error e => .error e
          | .ok kind =>
            .ok (isStrEq kind "OBJECT" || isStrEq kind "INPUT_OBJECT" || isStrEq kind "ENUM")

/-- Semantics of `Array.prototype.filter` with a callback that can throw:
elements are tested left to right and kept when the callback result is
true. -/
def filterM (p : Json → Except Unit Bool) : List Json → Except Unit (List Json)
  | [] => .ok []
  | x :: tl =>
    match p x with
    | .error e => .error e
    | .ok b =>
      match filterM p tl with
      | .error e => .error e
      | .ok rest => .ok (if b then x :: rest else rest)

/-- Left-to-right effectful map over a list, as performed by the renderer's
`for...of` loops and by `Array.prototype.map`. -/
def mapMEx (f : Json → Except Unit String) : List Json → Except Unit (List String)
  | [] => .ok []
  | x :: tl =>
    match f x with
    | .error e => .error e
    | .ok s =>
      match mapMEx f tl with
      | .error e => .error e
      | .ok rest => .ok (s :: rest)

/-- Semantics of `for...of` iteration: arrays iterate their elements,
strings iterate their characters, all other values throw a TypeError. -/
def jsIterate : Json → Except Unit (List Json)
  | .arr xs => .ok xs
  | .str s => .ok (s.toList.map (fun c => Json.str c.toString))
  | _ => .error ()

/-- The `.length` property of a value known to be truthy. -/
def jsLength : Json → Json
  | .arr xs => .num xs.length
  | .str s => .num s.length
  | .obj fs => (lookupField fs "length").getD .undefined
  | _ => .undefined

/-- JavaScript comparison `x > 0` for the values `.length` can produce:
numbers compare directly, `undefined`/`null`/non-numeric coercions are
false (NaN comparisons are false). -/
def jsGtZero : Json → Bool
  | .num n => decide (0 < n)
  | .bool b => b
  | .null => false
  | .undefined => false
  | j => match (jsToString j).toInt? with
         | some n => decide (0 < n)
         | none => false

/-- One argument of a field: the callback
`arg => ` followed by the template with `arg.name` and
`getTypeString(arg.type)`. -/
def renderArg (arg : Json) : Except Unit String :=
  match getF arg "name" with
  | .error e => .error e
  | .ok n =>
    match getF arg "type" with
    | .error e => .error e
    | .ok t =>
      match getTypeString t with
      | .error e => .error e
      | .ok ts => .ok (jsToString n ++ ": " ++ jsToString ts)

/-- One field line of an OBJECT type, following the source's evaluation
order: `getTypeString(field.type)` first, then `field.name`, then the
optional argument list, then the `: type` suffix and the newline. -/
def renderField (field : Json) : Except Unit String :=
  match getF field "type" with
  | .error e => .error e
  | .ok tJ =>
    match getTypeString tJ with
    | .error e => .error e
    | .ok fieldType =>
      match getF field "name" with
      | .error e => .error e
      | .ok nJ =>
        match getF field "args" with
        | .error e => .error e
        | .ok argsJ =>
          let base := "  " ++ jsToString nJ
          if truthy argsJ && jsGtZero (jsLength argsJ) then
            match argsJ with
            | .arr as =>
              match mapMEx renderArg as with
              | .error e => .error e
              | .ok parts =>
                .ok (base ++ "(" ++ String.intercalate ", " parts ++ ")" ++
                  ": " ++ jsToString fieldType ++ "\n")
            | _ => .error ()
          else .ok (base ++ ": " ++ jsToString fieldType ++ "\n")

/-- One input-field line of an INPUT_OBJECT type (`getTypeString(field.type)`
evaluated before `field.name`, as in the source template). -/
def renderInputField (field : Json) : Except Unit String :=
  match getF field "type" with
  | .error e => .error e
  | .ok tJ =>
    match getTypeString tJ with
    | .error e => .error e
    | .ok fieldType =>
      match getF field "name" with
      | .error e => .error e
      | .ok nJ => .ok ("  " ++ jsToString nJ ++ ": " ++ jsToString fieldType ++ "\n")

/-- One enum-value line of an ENUM type. -/
def renderEnumValue (v : Json) : Except Unit String :=
  match getF v "name" with
  | .error e => .error e
  | .ok nJ => .ok ("  " ++ jsToString nJ ++ "\n")

/-- The body of the loop over `customTypes`: renders one type descriptor.
An OBJECT renders `type <name> {` plus its field lines, an INPUT_OBJECT
`input <name> {` plus its input-field lines, an ENUM `enum <name> {` plus
its value lines; a falsy collection skips iteration; any other kind
contributes nothing. -/
def renderOneType (t : Json) : Except Unit String :=
  match getF t "kind" with
  | .error e => .error e
  | .ok kind =>
    if isStrEq kind "OBJECT" then
      match getF t "name" with
      | .error e => .error e
      | .ok nameJ =>
        match getF t "fields" with
        | .error e => .error e
        | .ok fieldsJ =>
          match (if truthy fieldsJ then
                   match jsIterate fieldsJ with
                   | .error e => .error e
                   | .ok fs =>
                     match mapMEx renderField fs with
                     | .error e => .error e
                     | .ok parts => .ok (String.join parts)
                 else .ok "" : Except Unit String) with
          | .error e => .error e
          | .ok body => .ok ("type " ++ jsToString nameJ ++ " \x7b\n" ++ body ++ "\x7d\n\n")
    else if isStrEq kind "INPUT_OBJECT" then
      match getF t "name" with
      | .error e => .error e
      | .ok nameJ =>
        match getF t "inputFields" with
        | .error e => .error e
        | .ok fieldsJ =>
          match (if truthy fieldsJ then
                   match jsIterate fieldsJ with
                   | .error e => .error e
                   | .ok fs =>
                     match mapMEx renderInputField fs with
                     | .error e => .error e
                     | .ok parts => .ok (String.join parts)
                 else .ok "" : Except Unit String) with
          | .error e => .error e
          | .ok body => .ok ("input " ++ jsToString nameJ ++ " \x7b\n" ++ body ++ "\x7d\n\n")
    else if isStrEq kind "ENUM" then
      match getF t "name" with
      | .error e => .error e
      | .ok nameJ =>
        match getF t "enumValues" with
        | .error e => .error e
        | .ok valsJ =>
          match (if truthy valsJ then
                   match jsIterate valsJ with
                   | .error e => .error e
                   | .ok vs =>
                     match mapMEx renderEnumValue vs with
                     | .error e => .error e
                     | .ok parts => .ok (String.join parts)
                 else .ok "" : Except Unit String) with
          | .error e => .error e
          | .ok body => .ok ("enum " ++ jsToString nameJ ++ " \x7b\n" ++ body ++ "\x7d\n\n")
    else .ok ""

/-- The two error kinds the renderer can raise: a TypeError from property
access or iteration on an unusable value, and the explicit
`Invalid schema structure: types not found or not an array` error. -/
inductive RErr where
  | typeError : RErr
  | structureError : RErr
deriving Repr, DecidableEq

/-- Root selection: `schema.__schema ? schema.__schema.types : schema.types`. -/
def selectTypes (schema : Json) : Except Unit Json :=
  match getF schema "__schema" with
  | .error e => .error e
  | .ok s => if truthy s then getF s "types" else getF schema "types"

/-- The part of `generateSchemaFromIntrospection` after root selection:
the structure check `if (!types || !Array.isArray(types)) throw ...`,
the filter, and the rendering loop (the loop appends to `result`, so a
throw mid-loop discards the whole output). -/
def generateFromTypes (types : Json) : Except RErr String :=
  if truthy types = false then .error .structureError
  else
    match types with
    | .arr xs =>
      match filterM filterPredicate xs with
      | .error _ => .error .typeError
      | .ok customTypes =>
        match mapMEx renderOneType customTypes with
        | .error _ => .error .typeError
        | .ok parts => .ok (String.join parts)
    | _ => .error .structureError

/-- The whole renderer `generateSchemaFromIntrospection(schema)`. -/
def generateSchemaFromIntrospection (schema : Json) : Except RErr String :=
  match selectTypes schema with
  | .error _ => .error .typeError
  | .ok types => generateFromTypes types

/-- The renderer together with the `console.log` observability payload
(the count and the name list of the types that passed the filter), so the
log's independence from the returned text can be stated. -/
def generateWithLog (schema : Json) : Except RErr ((Nat × List Json) × String) :=
  match selectTypes schema with
  | .error _ => .error .typeError
  | .ok types =>
    if truthy types = false then .error .structureError
    else
      match types with
      | .arr xs =>
        match filterM filterPredicate xs with
        | .error _ => .error .typeError
        | .ok customTypes =>
          match mapMEx renderOneType customTypes with
          | .error _ => .error .typeError
          | .ok parts =>
            .ok ((customTypes.length, customTypes.map (fun t => getFD t "name")),
              String.join parts)
      | _ => .error .structureError

/-!
The TypeRef data model of the specification: a possibly-nested type
reference, where a `LIST`/`NON_NULL` wrapper's `ofType` may be missing
(`listTrunc`/`nonNullTrunc`) as happens when the upstream introspection
query truncates nesting past its fixed depth.
-/

/-- A TypeRef tree as described by the specification's data model, including
the truncated wrapper nodes the fixed-depth query can produce. -/
inductive TypeRef where
  | named : String → String → TypeRef
  | listOf : TypeRef → TypeRef
  | listTrunc : TypeRef
  | nonNullOf : TypeRef → TypeRef
  | nonNullTrunc : TypeRef
deriving Repr

/-- The JSON shape of a TypeRef node in the introspection payload: named
nodes carry `kind` and `name` with a null `ofType`; wrapper nodes carry a
null `name` and their `ofType`; truncated wrapper nodes lack `ofType`. -/
def TypeRef.toJson : TypeRef → Json
  | .named k n => Json.obj [("kind", Json.str k), ("name", Json.str n), ("ofType", Json.null)]
  | .listOf t => Json.obj [("kind", Json.str "LIST"), ("name", Json.null), ("ofType", toJson t)]
  | .listTrunc => Json.obj [("kind", Json.str "LIST"), ("name", Json.null)]
  | .nonNullOf t => Json.obj [("kind", Json.str "NON_NULL"), ("name", Json.null), ("ofType", toJson t)]
  | .nonNullTrunc => Json.obj [("kind", Json.str "NON_NULL"), ("name", Json.null)]

/-- The well-formedness invariant of the data model: every node whose kind
is `LIST` or `NON_NULL` has a non-null `ofType`, and named nodes do not
carry a wrapper kind (exactly one of name/ofType is set, matching the
kind). -/
def TypeRef.wf : TypeRef → Bool
  | .named k _ => !(k == "NON_NULL") && !(k == "LIST")
  | .listOf t => wf t
  | .listTrunc => false
  | .nonNullOf t => wf t
  | .nonNullTrunc => false

/-- Modelled from the spec: the recursive rendering of a TypeRef in the
specification's words — `NON_NULL` appends a trailing `!` to the rendering
of `ofType`, `LIST` wraps it in `[` and `]`, and any other kind emits the
node's `name` verbatim.  Truncated wrappers are outside the grammar and
render as the empty string here; they are excluded by `TypeRef.wf`. -/
def unwrap : TypeRef → String
  | .named _ n => n
  | .listOf t => "[" ++ unwrap t ++ "]"
  | .listTrunc => ""
  | .nonNullOf t => unwrap t ++ "!"
  | .nonNullTrunc => ""

/-!
The fetch step (`fetchSchema`) and the main pipeline.  The network layer is
external: it either fails, or delivers a response body whose JSON parse
result is `none` (invalid JSON) or `some` value.  The response handler is

```js
try {
  const response = JSON.parse(data);
  if (response.errors) {
    reject(new Error(`GraphQL errors: ${JSON.stringify(response.errors)}`));
  } else {
    resolve(response.data);
  }
} catch (error) {
  reject(new Error(`Failed to parse response: ${error.message}`));
}
```

Note the `try` block also covers the `response.errors` property access, so a
body parsing to `null` is rejected through the catch branch as well.
-/

/-- JSON escaping of one character for `JSON.stringify`. -/
def escapeChar (c : Char) : String :=
  if c = '"' then "\\\""
  else if c = '\\' then "\\\\"
  else if c = '\n' then "\\n"
  else if c = '\t' then "\\t"
  else if c = '\r' then "\\r"
  else c.toString

/-- JSON escaping of a string for `JSON.stringify`. -/
def escapeJson (s : String) : String := String.join (s.toList.map escapeChar)

mutual
/-- Semantics of `JSON.stringify` on the values a parsed JSON body can
contain. -/
def stringify : Json → String
  | .undefined => "null"
  | .null => "null"
  | .bool true => "true"
  | .bool false => "false"
  | .num n => toString n
  | .str s => "\"" ++ escapeJson s ++ "\""
  | .arr xs => "[" ++ String.intercalate "," (stringifyList xs) ++ "]"
  | .obj fs => "\x7b" ++ String.intercalate "," (stringifyFields fs) ++ "\x7d"
/-- Stringification of an array's elements for `JSON.stringify`. -/
def stringifyList : List Json → List String
  | [] => []
  | x :: tl => stringify x :: stringifyList tl
/-- Stringification of an object's fields for `JSON.stringify`
(undefined-valued keys are omitted). -/
def stringifyFields : List (String × Json) → List String
  | [] => []
  | (_, .undefined) :: tl => stringifyFields tl
  | (k, v) :: tl => ("\"" ++ escapeJson k ++ "\":" ++ stringify v) :: stringifyFields tl
end

/-- What the HTTP layer hands to `fetchSchema`'s handlers: a request error,
or a complete response body, given here by its JSON parse result (`none`
when the body is not valid JSON). -/
inductive HttpOutcome where
  | netError : String → HttpOutcome
  | body : Option Json → HttpOutcome
deriving Repr

/-- How the promise returned by `fetchSchema` settles. -/
inductive FetchResult where
  | rejected : String → FetchResult
  | resolved : Json → FetchResult
deriving Repr

/-- The settlement logic of `fetchSchema`: request errors reject; a
non-JSON body rejects through the catch branch; a truthy `errors` field
rejects with the stringified errors; otherwise the promise resolves with
`response.data`.  A body parsing to `null` throws on the `.errors` access
inside the `try` and is rejected through the catch branch. -/
def fetchSettle : HttpOutcome → FetchResult
  | .netError m => .rejected m
  | .body none => .rejected "Failed to parse response"
  | .body (some resp) =>
    match getF resp "errors" with
    | .error _ => .rejected "Failed to parse response"
    | .ok errs =>
      if truthy errs then .rejected ("GraphQL errors: " ++ stringify errs)
      else
        match getF resp "data" with
        | .error _ => .rejected "Failed to parse response"
        | .ok d => .resolved d

/-- The two failure kinds of the fetch-then-render pipeline in `main`. -/
inductive MainErr where
  | fetchFailure : String → MainErr
  | renderFailure : RErr → MainErr
deriving Repr, DecidableEq

/-- The `main` pipeline with the renderer abstracted: the renderer runs
only if the fetch promise resolved. -/
def runMain (renderer : Json → Except RErr String) (h : HttpOutcome) : Except MainErr String :=
  match fetchSettle h with
  | .rejected m => .error (.fetchFailure m)
  | .resolved d =>
    match renderer d with
    | .error e => .error (.renderFailure e)
    | .ok s => .ok s

/-- Whether a pipeline run ended in the fetch-error path. -/
def isFetchFailure : Except MainErr String → Bool
  | .error (.fetchFailure _) => true
  | _ => false

/-- The exact condition under which the fetch step rejects: network
failure, a non-JSON body, a body parsing to JSON `null`, or a truthy
`errors` field of the parsed response (which includes an empty `errors`
array, since arrays are truthy). -/
def fetchFails : HttpOutcome → Bool
  | .netError _ => true
  | .body none => true
  | .body (some .null) => true
  | .body (some .undefined) => true
  | .body (some r) => truthy (getFD r "errors")

/-!
Specification-side characterizations used to compare the code against the
specification's words.
-/

/-- Modelled from the spec: the filtering rule in the specification's
words — a type is rendered iff its name is present (a usable, nonempty
string), does not start with `__`, and its kind is `OBJECT`,
`INPUT_OBJECT` or `ENUM`. -/
def specKeep (t : Json) : Bool :=
  match getFD t "name" with
  | .str s => !(s == "") && !(strStartsWith s "__") &&
      (isStrEq (getFD t "kind") "OBJECT" || isStrEq (getFD t "kind") "INPUT_OBJECT" ||
        isStrEq (getFD t "kind") "ENUM")
  | _ => false

/-- A value is descriptor-shaped for the purposes of the filter: an object
whose `name` property, if set, is a string or null.  Introspection type
descriptors always have this shape. -/
def nameOk : Json → Bool
  | .obj fs =>
    match lookupField fs "name" with
    | some (.str _) => true
    | some .null => true
    | none => true
    | _ => false
  | _ => false

/-- The types value the renderer selects from a payload, as a total
function (meaningful for non-null, non-undefined payloads). -/
def selectedTypes (schema : Json) : Json :=
  if truthy (getFD schema "__schema") then getFD (getFD schema "__schema") "types"
  else getFD schema "types"

/-!
Theorems.
-/

theorem getTypeString_toJson (r : TypeRef) (h : r.wf = true) :
    getTypeString r.toJson = Except.ok (Json.str (unwrap r)) := by
  induction r with
  | named k n =>
    simp only [TypeRef.wf, Bool.and_eq_true, Bool.not_eq_true'] at h
    obtain ⟨h1, h2⟩ := h
    simp [getTypeString, TypeRef.toJson, lookupField, isStrEq, unwrap, h1, h2]
  | listOf t ih =>
    simp only [TypeRef.wf] at h
    simp [getTypeString, TypeRef.toJson, lookupField, isStrEq, unwrap, ih h, jsToString,
      Except.map]
  | listTrunc => simp [TypeRef.wf] at h
  | nonNullOf t ih =>
    simp only [TypeRef.wf] at h
    simp [getTypeString, TypeRef.toJson, lookupField, isStrEq, unwrap, ih h, jsToString,
      Except.map]
  | nonNullTrunc => simp [TypeRef.wf] at h

/-- The TypeRef of the specification's example: a `NON_NULL` of `LIST` of
`NON_NULL` of the scalar `String`. -/
def stringListRef : TypeRef :=
  TypeRef.nonNullOf (TypeRef.listOf (TypeRef.nonNullOf (TypeRef.named "SCALAR" "String")))

/-- C1: for every TypeRef tree satisfying the well-formedness invariant,
`getTypeString` terminates (it is a total Lean function) and returns the
recursive rendering prescribed by the specification: the rendering of
`ofType` followed by `!` for `NON_NULL`, the rendering of `ofType` in
`[`/`]` for `LIST`, and the node's name verbatim for every other kind. -/
theorem C1_getTypeString_renders_unwrap (r : TypeRef) (h : r.wf = true) :
    getTypeString r.toJson = Except.ok (Json.str (unwrap r)) :=
  getTypeString_toJson r h

/-- Witness for C1 at the specification's own example: a `NON_NULL` of
`LIST` of `NON_NULL` of `String` renders as `[String!]!`. -/
theorem C1_getTypeString_renders_unwrap_witness :
    TypeRef.wf stringListRef = true ∧
      getTypeString stringListRef.toJson = Except.ok (Json.str "[String!]!") :=
  ⟨rfl, C1_getTypeString_renders_unwrap stringListRef rfl⟩

/-- C9: `getTypeString` is not total on ill-formed TypeRef nodes — a node
of kind `LIST` or `NON_NULL` whose `ofType` is null or absent throws
(both shapes are exhibited) — while under the precondition that every
`LIST`/`NON_NULL` node has a non-null `ofType` (the invariant
`TypeRef.wf`), the error branch is unreachable and `getTypeString`
always returns a string. -/
theorem C9_getTypeString_partiality (r : TypeRef) (h : r.wf = true) :
    getTypeString (Json.obj [("kind", Json.str "LIST"), ("name", Json.null),
        ("ofType", Json.null)]) = Except.error () ∧
      getTypeString (TypeRef.toJson TypeRef.nonNullTrunc) = Except.error () ∧
      getTypeString r.toJson = Except.ok (Json.str (unwrap r)) :=
  ⟨by simp [getTypeString, lookupField, isStrEq, Except.map],
   by simp [getTypeString, TypeRef.toJson, lookupField, isStrEq, Except.map],
   getTypeString_toJson r h⟩

/-- Witness for C9 at the scalar `Int`: the well-formed node returns the
string `Int` while the two ill-formed wrapper nodes throw. -/
theorem C9_getTypeString_partiality_witness :
    getTypeString (TypeRef.toJson (TypeRef.named "SCALAR" "Int")) =
      Except.ok (Json.str "Int") ∧
      getTypeString (TypeRef.toJson TypeRef.nonNullTrunc) = Except.error () :=
  ⟨(C9_getTypeString_partiality (TypeRef.named "SCALAR" "Int") rfl).2.2,
   (C9_getTypeString_partiality (TypeRef.named "SCALAR" "Int") rfl).2.1⟩

theorem getF_ok (t : Json) (k : String) (h1 : t ≠ Json.null) (h2 : t ≠ Json.undefined) :
    getF t k = Except.ok (getFD t k) := by
  cases t <;> simp_all [getF]

theorem truthy_ne_null (t : Json) (h : truthy t = true) : t ≠ Json.null := by
  cases t <;> simp_all [truthy]

theorem truthy_ne_undef (t : Json) (h : truthy t = true) : t ≠ Json.undefined := by
  cases t <;> simp_all [truthy]

theorem filterPredicate_eq (t : Json) (h : nameOk t = true) :
    filterPredicate t = Except.ok (specKeep t) := by
  cases t with
  | obj fs =>
    simp only [nameOk] at h
    rcases hn : lookupField fs "name" with _ | nv
    · simp [filterPredicate, getF, getFD, hn, truthy, specKeep]
    · cases nv with
      | undefined => simp [hn] at h
      | null => simp [filterPredicate, getF, getFD, hn, truthy, specKeep]
      | bool b => simp [hn] at h
      | num n => simp [hn] at h
      | str s =>
        by_cases hs : s = ""
        · subst hs
          simp [filterPredicate, getF, getFD, hn, truthy, specKeep]
        · by_cases hw : strStartsWith s "__" = true
          · simp [filterPredicate, getF, getFD, hn, truthy, specKeep, jsStartsWith, hs, hw]
          · simp [filterPredicate, getF, getFD, hn, truthy, specKeep, jsStartsWith, hs, hw]
      | arr xs => simp [hn] at h
      | obj gs => simp [hn] at h
  | undefined => simp [nameOk] at h
  | null => simp [nameOk] at h
  | bool b => simp [nameOk] at h
  | num n => simp [nameOk] at h
  | str s => simp [nameOk] at h
  | arr xs => simp [nameOk] at h

theorem filterM_eq (xs : List Json) (h : ∀ t ∈ xs, nameOk t = true) :
    filterM filterPredicate xs = Except.ok (xs.filter specKeep) := by
  induction xs with
  | nil => simp [filterM]
  | cons x tl ih =>
    have hx : nameOk x = true := h x (List.mem_cons_self x tl)
    have htl := ih (fun t ht => h t (List.mem_cons_of_mem x ht))
    rw [filterM, filterPredicate_eq x hx, htl]
    by_cases hk : specKeep x = true
    · simp [hk, List.filter_cons]
    · rw [Bool.not_eq_true] at hk
      simp [hk, List.filter_cons]

theorem generate_obj_types (xs : List Json) (h : ∀ t ∈ xs, nameOk t = true) :
    generateSchemaFromIntrospection (Json.obj [("types", Json.arr xs)]) =
      Except.mapError (fun _ => RErr.typeError)
        (Except.map String.join (mapMEx renderOneType (xs.filter specKeep))) := by
  rw [generateSchemaFromIntrospection]
  rw [show selectTypes (Json.obj [("types", Json.arr xs)]) = Except.ok (Json.arr xs) by
    simp [selectTypes, getF, getFD, lookupField, truthy]]
  simp only [generateFromTypes, truthy]
  rw [filterM_eq xs h]
  rcases hm : mapMEx renderOneType (xs.filter specKeep) with e | parts <;>
    simp [hm, Except.map, Except.mapError]

/-- C2: a type descriptor contributes a block to the rendered output iff
its name is present (a usable nonempty string), does not start with `__`,
and its kind is `OBJECT`, `INPUT_OBJECT` or `ENUM` (`specKeep`); all
other kinds, such as `SCALAR`, `INTERFACE` and `UNION`, are silently
dropped by the filter without an error, and the rendered document is the
concatenation of the blocks of exactly the kept descriptors. -/
theorem C2_filter_characterization (xs : List Json) (h : ∀ t ∈ xs, nameOk t = true) :
    filterM filterPredicate xs = Except.ok (xs.filter specKeep) ∧
      generateSchemaFromIntrospection (Json.obj [("types", Json.arr xs)]) =
        Except.mapError (fun _ => RErr.typeError)
          (Except.map String.join (mapMEx renderOneType (xs.filter specKeep))) :=
  ⟨filterM_eq xs h, generate_obj_types xs h⟩

/-- The OBJECT descriptor `User` of the specification's filtering example. -/
def userDesc : Json :=
  Json.obj [("kind", Json.str "OBJECT"), ("name", Json.str "User"), ("fields", Json.null)]

/-- The introspection meta-type descriptor `__Type` of the filtering example. -/
def metaTypeDesc : Json :=
  Json.obj [("kind", Json.str "OBJECT"), ("name", Json.str "__Type"), ("fields", Json.null)]

/-- The ENUM descriptor `Role` of the filtering example. -/
def roleDesc : Json :=
  Json.obj [("kind", Json.str "ENUM"), ("name", Json.str "Role"), ("enumValues", Json.null)]

/-- The INPUT_OBJECT descriptor `CreateUserInput` of the filtering example. -/
def createUserInputDesc : Json :=
  Json.obj [("kind", Json.str "INPUT_OBJECT"), ("name", Json.str "CreateUserInput"),
    ("inputFields", Json.null)]

/-- The UNION descriptor `SearchResult` of the filtering example. -/
def searchResultDesc : Json :=
  Json.obj [("kind", Json.str "UNION"), ("name", Json.str "SearchResult")]

/-- The specification's filtering example input sequence. -/
def exampleTypes : List Json :=
  [userDesc, metaTypeDesc, roleDesc, createUserInputDesc, searchResultDesc]

/-- Witness for C2: on the specification's example the filter keeps exactly
`User`, `Role` and `CreateUserInput`, in that order, and the rendered
document consists of their three blocks. -/
theorem C2_filter_characterization_witness :
    filterM filterPredicate exampleTypes =
      Except.ok [userDesc, roleDesc, createUserInputDesc] ∧
      generateSchemaFromIntrospection (Json.obj [("types", Json.arr exampleTypes)]) =
        Except.ok ("type User \x7b\n\x7d\n\n" ++ "enum Role \x7b\n\x7d\n\n" ++
          "input CreateUserInput \x7b\n\x7d\n\n") := by
  have h := C2_filter_characterization exampleTypes (by decide)
  refine ⟨?_, ?_⟩
  · rw [h.1]; rfl
  · rw [h.2]; rfl

/-- C5: the blocks of the rendered output are exactly the renderings of the
filter-passing descriptors, concatenated in input order (the filtered list
is an order-preserving sublist of the input; no sorting, and duplicates
are kept by `List.filter`, so equal-named descriptors each emit a block). -/
theorem C5_blocks_in_input_order (xs : List Json) (h : ∀ t ∈ xs, nameOk t = true)
    (parts : List String)
    (hp : mapMEx renderOneType (xs.filter specKeep) = Except.ok parts) :
    generateSchemaFromIntrospection (Json.obj [("types", Json.arr xs)]) =
      Except.ok (String.join parts) ∧
      List.Sublist (xs.filter specKeep) xs := by
  refine ⟨?_, List.filter_sublist xs⟩
  rw [generate_obj_types xs h, hp]
  rfl

/-- Witness for C5 with a duplicated descriptor: two identical `Role`
descriptors both pass the filter and two identical blocks are emitted. -/
theorem C5_blocks_in_input_order_witness :
    generateSchemaFromIntrospection (Json.obj [("types", Json.arr [roleDesc, roleDesc])]) =
      Except.ok (String.join ["enum Role \x7b\n\x7d\n\n", "enum Role \x7b\n\x7d\n\n"]) ∧
      List.Sublist ([roleDesc, roleDesc].filter specKeep) [roleDesc, roleDesc] :=
  C5_blocks_in_input_order [roleDesc, roleDesc] (by decide)
    ["enum Role \x7b\n\x7d\n\n", "enum Role \x7b\n\x7d\n\n"] (by rfl)

theorem selectTypes_eq (p : Json) (h1 : p ≠ Json.null) (h2 : p ≠ Json.undefined) :
    selectTypes p = Except.ok (selectedTypes p) := by
  rw [selectTypes, getF_ok p "__schema" h1 h2, selectedTypes]
  by_cases ht : truthy (getFD p "__schema") = true
  · simp only [ht, if_true]
    exact getF_ok _ "types" (truthy_ne_null _ ht) (truthy_ne_undef _ ht)
  · rw [Bool.not_eq_true] at ht
    simp only [ht, Bool.false_eq_true, if_false]
    exact getF_ok p "types" h1 h2

theorem isArr_exists (t : Json) (h : t.isArr = true) : ∃ xs, t = Json.arr xs := by
  cases t <;> simp_all [Json.isArr]

theorem generateFromTypes_arr (xs : List Json) :
    generateFromTypes (Json.arr xs) ≠ Except.error RErr.structureError := by
  simp only [generateFromTypes, truthy]
  rcases hf : filterM filterPredicate xs with e | ct
  · simp [hf]
  · simp only [hf]
    rcases hm : mapMEx renderOneType ct with e | parts <;> simp [hm]

theorem generateFromTypes_not_arr (t : Json) (h : t.isArr = false) :
    generateFromTypes t = Except.error RErr.structureError := by
  by_cases ht : truthy t = true
  · cases t <;> simp_all [generateFromTypes, Json.isArr, truthy]
  · rw [Bool.not_eq_true] at ht
    simp [generateFromTypes, ht]

/-- C3: the renderer fails with the StructureError (diagnostic
`types not found or not an array`) if and only if the selected types value
(under `__schema` when that key is truthy, else top-level) is not an
array; in particular the empty payload and a payload with a string
`types` both fail this way, and an error means no output is returned. -/
theorem C3_structure_error_iff (p : Json) (h1 : p ≠ Json.null) (h2 : p ≠ Json.undefined) :
    (generateSchemaFromIntrospection p = Except.error RErr.structureError ↔
        (selectedTypes p).isArr = false) ∧
      generateSchemaFromIntrospection (Json.obj []) = Except.error RErr.structureError ∧
      generateSchemaFromIntrospection (Json.obj [("types", Json.str "not-an-array")]) =
        Except.error RErr.structureError := by
  refine ⟨?_, by rfl, by rfl⟩
  rw [generateSchemaFromIntrospection, selectTypes_eq p h1 h2]
  constructor
  · intro hs
    by_contra harr
    rw [Bool.not_eq_false] at harr
    rcases isArr_exists _ harr with ⟨xs, hxs⟩
    rw [hxs] at hs
    exact generateFromTypes_arr xs hs
  · intro harr
    exact generateFromTypes_not_arr _ harr

/-- Witness for C3 at the empty payload. -/
theorem C3_structure_error_iff_witness :
    ((generateSchemaFromIntrospection (Json.obj []) = Except.error RErr.structureError ↔
        (selectedTypes (Json.obj [])).isArr = false) ∧
      generateSchemaFromIntrospection (Json.obj []) = Except.error RErr.structureError ∧
      generateSchemaFromIntrospection (Json.obj [("types", Json.str "not-an-array")]) =
        Except.error RErr.structureError) :=
  C3_structure_error_iff (Json.obj []) (by intro h; exact Json.noConfusion h)
    (by intro h; exact Json.noConfusion h)

/-- C10: when the `__schema` key is truthy the renderer consults only
`__schema.types` — the whole result is a function of that value alone —
so a payload whose truthy `__schema` lacks a types array fails with the
StructureError even when a valid top-level `types` array is present. -/
theorem C10_schema_key_precedence (p : Json) (h : truthy (getFD p "__schema") = true) :
    generateSchemaFromIntrospection p =
        generateFromTypes (getFD (getFD p "__schema") "types") ∧
      generateSchemaFromIntrospection
          (Json.obj [("__schema", Json.obj []), ("types", Json.arr [])]) =
        Except.error RErr.structureError := by
  refine ⟨?_, by rfl⟩
  have hp1 : p ≠ Json.null := by
    intro he; rw [he] at h; simp [getFD, truthy] at h
  have hp2 : p ≠ Json.undefined := by
    intro he; rw [he] at h; simp [getFD, truthy] at h
  rw [generateSchemaFromIntrospection, selectTypes_eq p hp1 hp2]
  simp [selectedTypes, h]

/-- Witness for C10: a payload with a truthy `__schema` object. -/
theorem C10_schema_key_precedence_witness :
    (generateSchemaFromIntrospection (Json.obj [("__schema",
          Json.obj [("types", Json.arr [])])]) =
        generateFromTypes (getFD (getFD (Json.obj [("__schema",
          Json.obj [("types", Json.arr [])])]) "__schema") "types") ∧
      generateSchemaFromIntrospection
          (Json.obj [("__schema", Json.obj []), ("types", Json.arr [])]) =
        Except.error RErr.structureError) :=
  C10_schema_key_precedence (Json.obj [("__schema", Json.obj [("types", Json.arr [])])]) rfl

/-- C7: a rendered descriptor whose `fields` (OBJECT), `inputFields`
(INPUT_OBJECT) or `enumValues` (ENUM) collection is null or absent (any
falsy value) renders as its header line plus the closing brace and a
blank line, with no error. -/
theorem C7_falsy_collections (n : String) (c : Json) (hc : truthy c = false) :
    renderOneType (Json.obj [("kind", Json.str "OBJECT"), ("name", Json.str n),
          ("fields", c)]) = Except.ok ("type " ++ n ++ " \x7b\n\x7d\n\n") ∧
      renderOneType (Json.obj [("kind", Json.str "OBJECT"), ("name", Json.str n)]) =
        Except.ok ("type " ++ n ++ " \x7b\n\x7d\n\n") ∧
      renderOneType (Json.obj [("kind", Json.str "INPUT_OBJECT"), ("name", Json.str n),
          ("inputFields", c)]) = Except.ok ("input " ++ n ++ " \x7b\n\x7d\n\n") ∧
      renderOneType (Json.obj [("kind", Json.str "INPUT_OBJECT"), ("name", Json.str n)]) =
        Except.ok ("input " ++ n ++ " \x7b\n\x7d\n\n") ∧
      renderOneType (Json.obj [("kind", Json.str "ENUM"), ("name", Json.str n),
          ("enumValues", c)]) = Except.ok ("enum " ++ n ++ " \x7b\n\x7d\n\n") ∧
      renderOneType (Json.obj [("kind", Json.str "ENUM"), ("name", Json.str n)]) =
        Except.ok ("enum " ++ n ++ " \x7b\n\x7d\n\n") := by
  have habs : truthy Json.undefined = false := rfl
  refine ⟨?_, ?_, ?_, ?_, ?_, ?_⟩ <;>
    simp [renderOneType, getF, getFD, lookupField, isStrEq, jsToString, hc, habs,
      String.append_assoc]

/-- Witness for C7 at the specification's example: an OBJECT named `Foo`
with `fields: null`. -/
theorem C7_falsy_collections_witness :
    renderOneType (Json.obj [("kind", Json.str "OBJECT"), ("name", Json.str "Foo"),
        ("fields", Json.null)]) = Except.ok ("type " ++ "Foo" ++ " \x7b\n\x7d\n\n") :=
  (C7_falsy_collections "Foo" Json.null rfl).1

/-- The JSON shape of an argument descriptor with a given name and type. -/
def mkArg (n : String) (t : TypeRef) : Json :=
  Json.obj [("name", Json.str n), ("type", t.toJson)]

/-- The JSON shape of an OBJECT field descriptor with a given name,
argument list and field type. -/
def mkField (n : String) (args : List (String × TypeRef)) (ft : TypeRef) : Json :=
  Json.obj [("name", Json.str n),
    ("args", Json.arr (args.map (fun a => mkArg a.1 a.2))),
    ("type", ft.toJson)]

theorem renderArg_mkArg (n : String) (t : TypeRef) (h : t.wf = true) :
    renderArg (mkArg n t) = Except.ok (n ++ ": " ++ unwrap t) := by
  simp [renderArg, mkArg, getF, getFD, lookupField, getTypeString_toJson t h, jsToString]

theorem mapMEx_renderArg (args : List (String × TypeRef))
    (h : ∀ a ∈ args, TypeRef.wf a.2 = true) :
    mapMEx renderArg (args.map (fun a => mkArg a.1 a.2)) =
      Except.ok (args.map (fun a => a.1 ++ ": " ++ unwrap a.2)) := by
  induction args with
  | nil => simp [mapMEx]
  | cons a tl ih =>
    have ha : TypeRef.wf a.2 = true := h a (List.mem_cons_self a tl)
    have htl := ih (fun b hb => h b (List.mem_cons_of_mem a hb))
    rw [List.map_cons, mapMEx, renderArg_mkArg a.1 a.2 ha, htl, List.map_cons]

/-- C6: a field line renders as two spaces, the field name, the argument
list in parentheses — present iff the field has one or more arguments,
with the arguments in input order, each as `name: type`, joined by comma
and space — then a colon and space and the unwrapped field type, then a
newline. -/
theorem C6_argument_list_rendering (n : String) (args : List (String × TypeRef))
    (ft : TypeRef) (hft : ft.wf = true)
    (hargs : ∀ a ∈ args, TypeRef.wf a.2 = true) :
    renderField (mkField n args ft) =
      Except.ok ("  " ++ n ++
        (if args.isEmpty then ""
         else "(" ++ String.intercalate ", "
           (args.map (fun a => a.1 ++ ": " ++ unwrap a.2)) ++ ")") ++
        ": " ++ unwrap ft ++ "\n") := by
  have hty := getTypeString_toJson ft hft
  cases args with
  | nil =>
    simp [renderField, mkField, getF, getFD, lookupField, hty, truthy, jsLength,
      jsGtZero, jsToString, mapMEx, String.append_assoc]
  | cons a tl =>
    have hm := mapMEx_renderArg (a :: tl) hargs
    simp only [List.map_cons] at hm
    simp [renderField, mkField, getF, getFD, lookupField, hty, hm, truthy, jsLength,
      jsGtZero, jsToString, String.append_assoc]

/-- Witness for C6 at the specification's example field
`search(name: String, limit: Int!)` with field type `User`. -/
theorem C6_argument_list_rendering_witness :
    renderField (mkField "search"
        [("name", TypeRef.named "SCALAR" "String"),
         ("limit", TypeRef.nonNullOf (TypeRef.named "SCALAR" "Int"))]
        (TypeRef.named "OBJECT" "User")) =
      Except.ok ("  search(name: String, limit: Int!): User\n") := by
  have h := C6_argument_list_rendering "search"
    [("name", TypeRef.named "SCALAR" "String"),
     ("limit", TypeRef.nonNullOf (TypeRef.named "SCALAR" "Int"))]
    (TypeRef.named "OBJECT" "User") (by decide) (by decide)
  rw [h]
  rfl

/-- C8: the renderer is deterministic — rendering the same payload twice
yields identical results — and the console-log observability payload (the
count and name list of the filtered types computed by `generateWithLog`)
does not affect the returned text: projecting the log away yields exactly
`generateSchemaFromIntrospection`. -/
theorem C8_deterministic_and_log_independent (p : Json) :
    generateWithLog p = generateWithLog p ∧
      Except.map Prod.snd (generateWithLog p) = generateSchemaFromIntrospection p := by
  refine ⟨rfl, ?_⟩
  simp only [generateWithLog, generateSchemaFromIntrospection]
  rcases hs : selectTypes p with e | types
  · simp [Except.map]
  · by_cases ht : truthy types = true
    · cases types with
      | undefined => simp [truthy] at ht
      | null => simp [truthy] at ht
      | bool b => simp [generateFromTypes, ht, Except.map]
      | num m => simp [generateFromTypes, ht, Except.map]
      | str s => simp [generateFromTypes, ht, Except.map]
      | obj fs => simp [generateFromTypes, ht, Except.map]
      | arr xs =>
        rcases hf : filterM filterPredicate xs with e | ct
        · simp [generateFromTypes, ht, hf, Except.map]
        · rcases hm : mapMEx renderOneType ct with e | parts
          · simp [generateFromTypes, ht, hf, hm, Except.map]
          · simp [generateFromTypes, ht, hf, hm, Except.map]
    · rw [Bool.not_eq_true] at ht
      simp [generateFromTypes, ht, Except.map]

/-- The parsed response body `\x7b"errors":[\x7b"message":"boom"\x7d]\x7d`
of the specification's fetch-error example. -/
def boomBody : Json :=
  Json.obj [("errors", Json.arr [Json.obj [("message", Json.str "boom")]])]

/-- The rejection message the fetch step produces for `boomBody`; it
contains the upstream detail `boom`. -/
def boomMsg : String := "GraphQL errors: [\x7b\"message\":\"boom\"\x7d]"

theorem fetchFails_resp (resp : Json) (h1 : resp ≠ Json.null) (h2 : resp ≠ Json.undefined) :
    fetchFails (HttpOutcome.body (some resp)) = truthy (getFD resp "errors") := by
  cases resp <;> simp_all [fetchFails]

theorem fetch_resp_case (r : Json → Except RErr String) (resp : Json)
    (h1 : resp ≠ Json.null) (h2 : resp ≠ Json.undefined) :
    isFetchFailure (runMain r (HttpOutcome.body (some resp))) =
      truthy (getFD resp "errors") := by
  rw [runMain, fetchSettle, getF_ok resp "errors" h1 h2]
  by_cases he : truthy (getFD resp "errors") = true
  · simp [he, isFetchFailure]
  · rw [Bool.not_eq_true] at he
    simp only [he, Bool.false_eq_true, if_false]
    rw [getF_ok resp "data" h1 h2]
    rcases hr : r (getFD resp "data") with e | s <;> simp [hr, isFetchFailure]

/-- Counterexample to C4 as stated: an empty `errors` array is truthy in
JavaScript, so the body `\x7b"errors":[]\x7d` — neither a network failure,
nor a non-JSON body, nor a non-empty errors array — still takes the
fetch-error path, rejecting with `GraphQL errors: []`. -/
theorem C4_empty_errors_counterexample :
    fetchSettle (HttpOutcome.body (some (Json.obj [("errors", Json.arr [])]))) =
      FetchResult.rejected "GraphQL errors: []" ∧
      isFetchFailure (runMain generateSchemaFromIntrospection
        (HttpOutcome.body (some (Json.obj [("errors", Json.arr [])])))) = true := by
  constructor
  · rfl
  · rfl

/-- C4 (amended): a response with a non-empty `errors` array rejects with
a FetchError carrying the upstream detail and the renderer is never
invoked (the pipeline result is the same for any two renderers whenever
the fetch fails); the FetchError path triggers exactly for network
failure, a non-JSON response body, a body parsing to JSON `null`, or a
truthy `errors` value — which is any non-empty errors array, but also an
empty one, since arrays are truthy. -/
theorem C4_fetch_error_conditions (r₁ r₂ : Json → Except RErr String) (h : HttpOutcome) :
    isFetchFailure (runMain r₁ h) = fetchFails h ∧
      (fetchFails h = true → runMain r₁ h = runMain r₂ h) ∧
      runMain r₁ (HttpOutcome.body (some boomBody)) =
        Except.error (MainErr.fetchFailure boomMsg) := by
  refine ⟨?_, ?_, by rfl⟩
  · cases h with
    | netError m => rfl
    | body ob =>
      rcases ob with _ | resp
      · rfl
      · by_cases hn1 : resp = Json.null
        · subst hn1; rfl
        · by_cases hn2 : resp = Json.undefined
          · subst hn2; rfl
          · rw [fetch_resp_case r₁ resp hn1 hn2, fetchFails_resp resp hn1 hn2]
  · intro hf
    cases h with
    | netError m => rfl
    | body ob =>
      rcases ob with _ | resp
      · rfl
      · by_cases hn1 : resp = Json.null
        · subst hn1; rfl
        · by_cases hn2 : resp = Json.undefined
          · subst hn2; rfl
          · rw [fetchFails_resp resp hn1 hn2] at hf
            simp [runMain, fetchSettle, getF_ok resp "errors" hn1 hn2, hf]

/-- Witness for C4's amended theorem at the `boom` example: the fetch step
fails, and the pipeline result does not depend on the renderer. -/
theorem C4_fetch_error_conditions_witness :
    isFetchFailure (runMain generateSchemaFromIntrospection
        (HttpOutcome.body (some boomBody))) =
      fetchFails (HttpOutcome.body (some boomBody)) ∧
      runMain generateSchemaFromIntrospection (HttpOutcome.body (some boomBody)) =
        runMain (fun _ => Except.ok "") (HttpOutcome.body (some boomBody)) := by
  have h := C4_fetch_error_conditions generateSchemaFromIntrospection
    (fun _ => Except.ok "") (HttpOutcome.body (some boomBody))
  exact ⟨h.1, h.2.1 (by rfl)⟩

end GqlPoc
